import Mathlib

/-!
Verification of the e-mail gateway in `mcp_email_server.py`.

The module exposes three operations — `send_email`,
`send_email_with_attachment` and `send_bulk_emails` — each a linear
sequence: resolve configuration, build a MIME message, open an SMTP
session (connect, optional STARTTLS, authenticate), transmit, quit,
wrapped in a `try/except` that converts every raised exception into an
error string.

Embedding choices:
* The process environment is a record of the five variables the server
  reads (`os.getenv` yields `none` when a variable is unset).
* The module-level globals (lines 20-24 of the source) are a record; the
  import-time `int(os.getenv("SMTP_PORT"))` is modelled by `loadGlobals`.
* The SMTP library is an oracle (`SmtpOracle`) that gives, for each
  network step, whether the underlying call returns or raises; each
  operation returns its result string together with the ordered trace of
  network actions it attempted (`List Ev`), so theorems can speak about
  connection attempts, STARTTLS ordering, and session closing.
* A raised Python exception is a `PyErr` carrying `str(e)`; the exact
  wording of interpreter-generated messages (`TypeError`, `ValueError`)
  is representative, not bit-exact.
-/

namespace EmailServer

/-- Outcome payload of a Python expression that raises: `msg` is `str(e)`. -/
structure PyErr where
  msg : String
deriving DecidableEq, Repr

/-- Process environment: the five variables the server reads; a field is
`none` when the variable is unset, `some s` (possibly empty) when set. -/
structure Env where
  EMAIL_FROM : Option String
  SMTP_SERVER : Option String
  SMTP_PORT : Option String
  SMTP_USERNAME : Option String
  SMTP_PASSWORD : Option String
deriving DecidableEq, Repr

/-- Module-level globals of lines 20-24: `SMTP_PORT` was forced through
`int(...)` at import time, so it is an `Int` here. -/
structure Globals where
  EMAIL_FROM : Option String
  SMTP_SERVER : Option String
  SMTP_PORT : Int
  SMTP_USERNAME : Option String
  SMTP_PASSWORD : Option String
deriving DecidableEq, Repr

/-- Python `s.split(",")`, worker: splits at every comma; a string with no
comma yields a single chunk, so the result is never empty. -/
def pySplitCommaAux : List Char → List Char → List String
  | [], acc => [String.mk acc.reverse]
  | c :: cs, acc =>
    if c = ',' then String.mk acc.reverse :: pySplitCommaAux cs []
    else pySplitCommaAux cs (c :: acc)

/-- Python `s.split(",")`. -/
def pySplitComma (s : String) : List String := pySplitCommaAux s.data []

/-- Python `s.strip()`: drop leading and trailing whitespace. -/
def pyStrip (s : String) : String :=
  String.mk (((s.data.dropWhile Char.isWhitespace).reverse.dropWhile Char.isWhitespace).reverse)

/-- Decimal digit-string value, worker. -/
def digitsValAux : List Char → Nat → Option Nat
  | [], acc => some acc
  | c :: cs, acc =>
    if c.isDigit then digitsValAux cs (acc * 10 + (c.toNat - 48)) else none

/-- Value of a nonempty decimal digit string. -/
def digitsVal : List Char → Option Nat
  | [] => none
  | ds => digitsValAux ds 0

/-- Python `int(s)` applied to a string: surrounding whitespace is ignored,
then an optionally signed decimal literal is parsed. -/
def pyParseInt (s : String) : Option Int :=
  match (pyStrip s).data with
  | '-' :: ds => (digitsVal ds).map (fun n => -(n : Int))
  | '+' :: ds => (digitsVal ds).map (fun n => (n : Int))
  | ds => (digitsVal ds).map (fun n => (n : Int))

/-- Representative `str(e)` of the `TypeError` raised by `int(None)`. -/
def intNoneMsg : String :=
  "int() argument must be a string, a bytes-like object or a real number, not NoneType"

/-- Representative `str(e)` of the `ValueError` raised by `int(s)` on a
string that is not an integer literal. -/
def intBadMsg (s : String) : String :=
  "invalid literal for int() with base 10: " ++ s

/-- Module import, lines 20-24: the four string globals are plain
`os.getenv` results, and `int(os.getenv("SMTP_PORT"))` raises when the
variable is unset (`TypeError`) or malformed (`ValueError`). -/
def loadGlobals (e : Env) : Except PyErr Globals :=
  match e.SMTP_PORT with
  | none => Except.error ⟨intNoneMsg⟩
  | some s =>
    match pyParseInt s with
    | none => Except.error ⟨intBadMsg s⟩
    | some p => Except.ok ⟨e.EMAIL_FROM, e.SMTP_SERVER, p, e.SMTP_USERNAME, e.SMTP_PASSWORD⟩

/-- Python truthiness of a value that is `None` or a string: `None` and the
empty string are falsy. -/
def truthyOpt : Option String → Bool
  | none => false
  | some s => !(s == "")

/-- Python truthiness of a plain string. -/
def truthyStr (s : String) : Bool := !(s == "")

/-- Python `a or b` where both operands are `None`-or-string. -/
def pyOrOpt (a b : Option String) : Option String :=
  if truthyOpt a then a else b

/-- Python `a or b` where the right operand is a plain string, as in line 54:
`SMTP_SERVER or os.getenv("SMTP_SERVER", "smtp.gmail.com")`. -/
def pyOrStr (a : Option String) (b : String) : String :=
  match a with
  | some s => if s == "" then b else s
  | none => b

/-- Lines 55 and 112: `SMTP_PORT or int(os.getenv("SMTP_PORT", 587))`.
The global is falsy exactly when it is `0`; the fallback `int(...)` can
still raise `ValueError` on a set-but-malformed variable. -/
def portOrDefault (g : Int) (envPort : Option String) : Except PyErr Int :=
  if g == 0 then
    match envPort with
    | none => Except.ok 587
    | some s =>
      match pyParseInt s with
      | none => Except.error ⟨intBadMsg s⟩
      | some p => Except.ok p
  else Except.ok g

/-- Line 187: `SMTP_PORT or int(os.getenv("SMTP_PORT"))` — no default, so an
unset variable raises `TypeError` inside the surrounding `try` block. -/
def portNoDefault (g : Int) (envPort : Option String) : Except PyErr Int :=
  if g == 0 then
    match envPort with
    | none => Except.error ⟨intNoneMsg⟩
    | some s =>
      match pyParseInt s with
      | none => Except.error ⟨intBadMsg s⟩
      | some p => Except.ok p
  else Except.ok g

/-- Network actions an operation can attempt, recorded in attempt order. -/
inductive Ev where
  | connect (host : String) (port : Int)
  | starttls
  | login
  | send (rcpt : String)
  | quit
deriving DecidableEq, Repr

/-- Outcome oracle for the SMTP transport: for each step of the session,
whether the underlying library call returns or raises (delivery outcome of
`send_message` is keyed by the recipient on the message envelope). -/
structure SmtpOracle where
  connectR : String → Int → Except PyErr Unit
  starttlsR : Except PyErr Unit
  loginR : Except PyErr Unit
  sendR : String → Except PyErr Unit
  quitR : Except PyErr Unit

/-- Session prologue shared verbatim by the three operations:
`smtplib.SMTP(host, port)`, then `starttls()` when the TLS flag is set,
then `login(...)`. Returns the attempted events in order, and the first
exception if one of the steps raised. -/
def openSession (o : SmtpOracle) (host : String) (port : Int) (use_tls : Bool) :
    List Ev × Except PyErr Unit :=
  match o.connectR host port with
  | Except.error e => ([Ev.connect host port], Except.error e)
  | Except.ok _ =>
    if use_tls then
      match o.starttlsR with
      | Except.error e => ([Ev.connect host port, Ev.starttls], Except.error e)
      | Except.ok _ =>
        match o.loginR with
        | Except.error e => ([Ev.connect host port, Ev.starttls, Ev.login], Except.error e)
        | Except.ok _ => ([Ev.connect host port, Ev.starttls, Ev.login], Except.ok ())
    else
      match o.loginR with
      | Except.error e => ([Ev.connect host port, Ev.login], Except.error e)
      | Except.ok _ => ([Ev.connect host port, Ev.login], Except.ok ())

/-- Lines 31-84 of the source (`send_email`). Returns the result string and
the trace of attempted network actions. MIME construction (lines 63-69)
cannot raise and is not observable on the network, so only the recipient on
the envelope reaches the trace; `subject`, `body` and `body_type` are kept
for arity fidelity. -/
def send_email (g : Globals) (env : Env) (o : SmtpOracle)
    (to_email subject body : String) (use_tls : Bool) (body_type : String) :
    String × List Ev :=
  let from_email := pyOrOpt g.EMAIL_FROM env.EMAIL_FROM
  let smtp_server := pyOrStr g.SMTP_SERVER (env.SMTP_SERVER.getD "smtp.gmail.com")
  match portOrDefault g.SMTP_PORT env.SMTP_PORT with
  | Except.error e => ("Error sending email: " ++ e.msg, [])
  | Except.ok smtp_port =>
    let username := pyOrOpt g.SMTP_USERNAME env.SMTP_USERNAME
    let password := pyOrOpt g.SMTP_PASSWORD env.SMTP_PASSWORD
    if !(truthyOpt from_email && truthyStr smtp_server && truthyOpt username && truthyOpt password) then
      ("Error: Missing required email configuration. Please provide credentials or set environment variables.", [])
    else
      match openSession o smtp_server smtp_port use_tls with
      | (t, Except.error e) => ("Error sending email: " ++ e.msg, t)
      | (t, Except.ok _) =>
        match o.sendR to_email with
        | Except.error e => ("Error sending email: " ++ e.msg, t ++ [Ev.send to_email])
        | Except.ok _ =>
          match o.quitR with
          | Except.error e =>
            ("Error sending email: " ++ e.msg, t ++ [Ev.send to_email, Ev.quit])
          | Except.ok _ =>
            ("Email sent successfully to " ++ to_email, t ++ [Ev.send to_email, Ev.quit])

/-- Local filesystem as seen by `send_email_with_attachment`:
`pathExists p` models `os.path.exists(p)`, and `readR p` the outcome of
`open(p, "rb")` followed by `.read()` — which can raise even for an
existing path (e.g. `IsADirectoryError` for a directory, or
`PermissionError`). -/
structure PyFs where
  pathExists : String → Bool
  readR : String → Except PyErr Unit

/-- Lines 88-158 (`send_email_with_attachment`). The existence check
(line 120) precedes the read (lines 134-137), which itself precedes the
connect (line 146); a read failure is caught by the outer `try` and
produces the wrapped error with no network event. The bytes themselves
cannot be observed in the result string or on the network, so only the
read's success or exception is modelled. -/
def send_email_with_attachment (g : Globals) (env : Env) (o : SmtpOracle)
    (fs : PyFs)
    (to_email subject body attachment_path : String) (use_tls : Bool) :
    String × List Ev :=
  let from_email := pyOrOpt g.EMAIL_FROM env.EMAIL_FROM
  let smtp_server := pyOrStr g.SMTP_SERVER (env.SMTP_SERVER.getD "smtp.gmail.com")
  match portOrDefault g.SMTP_PORT env.SMTP_PORT with
  | Except.error e => ("Error sending email with attachment: " ++ e.msg, [])
  | Except.ok smtp_port =>
    let username := pyOrOpt g.SMTP_USERNAME env.SMTP_USERNAME
    let password := pyOrOpt g.SMTP_PASSWORD env.SMTP_PASSWORD
    if !(truthyOpt from_email && truthyStr smtp_server && truthyOpt username && truthyOpt password) then
      ("Error: Missing required email configuration.", [])
    else if !(fs.pathExists attachment_path) then
      ("Error: Attachment file not found: " ++ attachment_path, [])
    else
      match fs.readR attachment_path with
      | Except.error e => ("Error sending email with attachment: " ++ e.msg, [])
      | Except.ok _ =>
      match openSession o smtp_server smtp_port use_tls with
      | (t, Except.error e) => ("Error sending email with attachment: " ++ e.msg, t)
      | (t, Except.ok _) =>
        match o.sendR to_email with
        | Except.error e =>
          ("Error sending email with attachment: " ++ e.msg, t ++ [Ev.send to_email])
        | Except.ok _ =>
          match o.quitR with
          | Except.error e =>
            ("Error sending email with attachment: " ++ e.msg,
             t ++ [Ev.send to_email, Ev.quit])
          | Except.ok _ =>
            ("Email with attachment sent successfully to " ++ to_email,
             t ++ [Ev.send to_email, Ev.quit])

/-- Line 182: `[email.strip() for email in recipients.split(",")]`. -/
def parseRecipients (recipients : String) : List String :=
  (pySplitComma recipients).map (fun e => pyStrip e)

/-- Lines 206-217: the per-recipient loop. For each recipient, in order, a
send is attempted; on success the recipient joins `successful`, on an
exception the entry `recipient ++ ": " ++ str(e)` joins `failed`. Returns
`(successful, failed)`. -/
def bulkLoop (o : SmtpOracle) : List String → List String × List String
  | [] => ([], [])
  | r :: rs =>
    match o.sendR r with
    | Except.ok _ =>
      let p := bulkLoop o rs
      (r :: p.1, p.2)
    | Except.error e =>
      let p := bulkLoop o rs
      (p.1, (r ++ ": " ++ e.msg) :: p.2)

/-- Lines 162-228 (`send_bulk_emails`). One session is opened; the loop
sends to each parsed recipient; `quit` is attempted once after the loop;
the summary string reports the success count and, when any recipient
failed, the failure count with the comma-joined failure entries. -/
def send_bulk_emails (g : Globals) (env : Env) (o : SmtpOracle)
    (recipients subject body : String) (use_tls : Bool) :
    String × List Ev :=
  let recipient_list := parseRecipients recipients
  let from_email := pyOrOpt g.EMAIL_FROM env.EMAIL_FROM
  let smtp_server := pyOrOpt g.SMTP_SERVER env.SMTP_SERVER
  match portNoDefault g.SMTP_PORT env.SMTP_PORT with
  | Except.error e => ("Error sending bulk emails: " ++ e.msg, [])
  | Except.ok smtp_port =>
    let username := pyOrOpt g.SMTP_USERNAME env.SMTP_USERNAME
    let password := pyOrOpt g.SMTP_PASSWORD env.SMTP_PASSWORD
    if !(truthyOpt from_email && truthyOpt smtp_server && truthyOpt username && truthyOpt password) then
      ("Error: Missing required email configuration.", [])
    else
      match openSession o (smtp_server.getD "") smtp_port use_tls with
      | (t, Except.error e) => ("Error sending bulk emails: " ++ e.msg, t)
      | (t, Except.ok _) =>
        let p := bulkLoop o recipient_list
        let t2 := t ++ recipient_list.map Ev.send ++ [Ev.quit]
        match o.quitR with
        | Except.error e => ("Error sending bulk emails: " ++ e.msg, t2)
        | Except.ok _ =>
          let base := "Successfully sent to " ++ toString p.1.length ++ " recipients."
          let result :=
            if p.2.isEmpty then base
            else base ++ "\nFailed for " ++ toString p.2.length ++ " recipients: " ++
              String.intercalate ", " p.2
          (result, t2)

/-- The recipients of the `send` events of a trace, in attempt order. -/
def sendTargets (t : List Ev) : List String :=
  t.filterMap (fun e => match e with | Ev.send r => some r | _ => none)

/-- Whether the oracle delivers to recipient `r` without raising. -/
def sendOk (o : SmtpOracle) (r : String) : Bool :=
  match o.sendR r with
  | Except.ok _ => true
  | Except.error _ => false

/-- The reason string (`str(e)`) of a failed step; empty on success. -/
def reasonOf : Except PyErr Unit → String
  | Except.error e => e.msg
  | Except.ok _ => ""

/-- Holds when no `login` event occurs before the first `starttls` event of
a trace. -/
def noLoginBeforeStarttls (t : List Ev) : Bool :=
  (t.takeWhile (fun e => !(e == Ev.starttls))).all (fun e => !(e == Ev.login))

/-- Environment with none of the five variables set (call-time lookups all
miss, so the module globals alone decide the configuration). -/
def envNone : Env := ⟨none, none, none, none, none⟩

/-- Fully populated globals. -/
def gFull : Globals := ⟨some "from@x.com", some "smtp.x.com", 2525, some "user", some "pw"⟩

/-- Globals whose `SMTP_SERVER` is unset, everything else populated. -/
def gHostless : Globals := ⟨some "from@x.com", none, 2525, some "user", some "pw"⟩

/-- Globals whose `SMTP_PORT` is falsy (`0`), everything else populated. -/
def gPortless : Globals := ⟨some "from@x.com", some "smtp.x.com", 0, some "user", some "pw"⟩

/-- Globals whose `EMAIL_FROM` is unset, everything else populated. -/
def gNoFrom : Globals := ⟨none, some "smtp.x.com", 2525, some "user", some "pw"⟩

/-- Environment with no from-address, everything else populated; imports
successfully to `gNoFrom`. -/
def envNoFrom : Env := ⟨none, some "smtp.x.com", some "2525", some "user", some "pw"⟩

/-- Environment with no SMTP host, everything else populated; imports
successfully to `gHostless`. -/
def envHostless : Env := ⟨some "from@x.com", none, some "2525", some "user", some "pw"⟩

/-- Environment whose port variable is unset: the module import itself
raises at line 22 and no operation ever runs. -/
def envPortAbsent : Env := ⟨some "from@x.com", some "smtp.x.com", none, some "user", some "pw"⟩

/-- Environment whose port variable is the string `"0"`: the only way the
port global can be falsy; imports successfully to `gPortless`. -/
def envPortZero : Env := ⟨some "from@x.com", some "smtp.x.com", some "0", some "user", some "pw"⟩

/-- Transport on which every step succeeds. -/
def okOracle : SmtpOracle :=
  ⟨fun _ _ => Except.ok (), Except.ok (), Except.ok (), fun _ => Except.ok (), Except.ok ()⟩

/-- Transport that fails delivery exactly for `b@x.com`. -/
def failBOracle : SmtpOracle :=
  ⟨fun _ _ => Except.ok (), Except.ok (), Except.ok (),
   fun r => if r == "b@x.com" then Except.error ⟨"boom"⟩ else Except.ok (),
   Except.ok ()⟩

/-- Transport on which `login` raises. -/
def failLoginOracle : SmtpOracle :=
  ⟨fun _ _ => Except.ok (), Except.ok (), Except.error ⟨"auth failed"⟩,
   fun _ => Except.ok (), Except.ok ()⟩

/-- Filesystem on which no path exists. -/
def noFs : PyFs := ⟨fun _ => false, fun _ => Except.ok ()⟩

/-- Filesystem on which every path exists and reads succeed. -/
def yesFs : PyFs := ⟨fun _ => true, fun _ => Except.ok ()⟩

/-- Filesystem on which every path exists but reading raises, as for a
directory passed as the attachment path. -/
def dirFs : PyFs := ⟨fun _ => true, fun _ => Except.error ⟨"Is a directory"⟩⟩

/-! Helper lemmas about the session prologue and the bulk loop. -/

/-- When connect, STARTTLS (if requested) and login all succeed, the
prologue yields the expected trace and no exception. -/
lemma openSession_ok (o : SmtpOracle) (host : String) (port : Int) (use_tls : Bool)
    (hc : o.connectR host port = Except.ok ())
    (ht : use_tls = true → o.starttlsR = Except.ok ())
    (hl : o.loginR = Except.ok ()) :
    openSession o host port use_tls =
      ((Ev.connect host port :: if use_tls then [Ev.starttls, Ev.login] else [Ev.login]),
       Except.ok ()) := by
  cases use_tls with
  | false => simp [openSession, hc, hl]
  | true => simp [openSession, hc, hl, ht rfl]

/-- The prologue never attempts a `send` or a `quit`, and its first event is
always the connect attempt. -/
lemma openSession_pre (o : SmtpOracle) (host : String) (port : Int) (use_tls : Bool) :
    sendTargets (openSession o host port use_tls).1 = [] ∧
    Ev.quit ∉ (openSession o host port use_tls).1 ∧
    ∃ rest, (openSession o host port use_tls).1 = Ev.connect host port :: rest := by
  cases hc : o.connectR host port with
  | error e => simp [openSession, hc, sendTargets]
  | ok u =>
    cases use_tls with
    | false =>
      cases hl : o.loginR with
      | error e => simp [openSession, hc, hl, sendTargets]
      | ok w => simp [openSession, hc, hl, sendTargets]
    | true =>
      cases hs : o.starttlsR with
      | error e => simp [openSession, hc, hs, sendTargets]
      | ok v =>
        cases hl : o.loginR with
        | error e => simp [openSession, hc, hs, hl, sendTargets]
        | ok w => simp [openSession, hc, hs, hl, sendTargets]

/-- The loop partitions its input by the delivery outcome: successes are the
recipients the oracle delivers, in input order; failures are the others, in
input order, each tagged with its reason. -/
lemma bulkLoop_filter (o : SmtpOracle) (rs : List String) :
    bulkLoop o rs =
      (rs.filter (fun r => sendOk o r),
       (rs.filter (fun r => !(sendOk o r))).map (fun r => r ++ ": " ++ reasonOf (o.sendR r))) := by
  induction rs with
  | nil => simp [bulkLoop]
  | cons r rs ih =>
    cases h : o.sendR r with
    | ok u => simp [bulkLoop, h, sendOk, reasonOf, ih]
    | error e => simp [bulkLoop, h, sendOk, reasonOf, ih]

/-- `send` events carry no `quit`. -/
lemma quit_not_mem_map_send (rs : List String) : Ev.quit ∉ rs.map Ev.send := by
  simp

/-- Count of `quit` in a trace made of `send` events is zero. -/
lemma count_quit_map_send (rs : List String) : (rs.map Ev.send).count Ev.quit = 0 :=
  List.count_eq_zero.mpr (quit_not_mem_map_send rs)

/-- The send targets of a block of `send` events are the recipients. -/
lemma sendTargets_map_send (rs : List String) : sendTargets (rs.map Ev.send) = rs := by
  induction rs with
  | nil => simp [sendTargets]
  | cons r rs ih => simpa [sendTargets] using ih

/-- `sendTargets` distributes over appends. -/
lemma sendTargets_append (t u : List Ev) :
    sendTargets (t ++ u) = sendTargets t ++ sendTargets u := by
  simp [sendTargets]

/-- A successful module import (lines 20-24) couples the globals with the
process environment: the four string globals copy the environment, the port
variable is present and parses to the port global, and consequently both
per-call port expressions (lines 55/112 and 187) return the port global
without raising — the `587` default and the `int(None)` raise are
unreachable in any state a tool call can observe. -/
lemma loadGlobals_spec (env : Env) (g : Globals) (h : loadGlobals env = Except.ok g) :
    g.EMAIL_FROM = env.EMAIL_FROM ∧ g.SMTP_SERVER = env.SMTP_SERVER ∧
    g.SMTP_USERNAME = env.SMTP_USERNAME ∧ g.SMTP_PASSWORD = env.SMTP_PASSWORD ∧
    (∃ s, env.SMTP_PORT = some s ∧ pyParseInt s = some g.SMTP_PORT) ∧
    portOrDefault g.SMTP_PORT env.SMTP_PORT = Except.ok g.SMTP_PORT ∧
    portNoDefault g.SMTP_PORT env.SMTP_PORT = Except.ok g.SMTP_PORT := by
  unfold loadGlobals at h
  cases he : env.SMTP_PORT with
  | none => simp [he] at h
  | some s =>
    simp only [he] at h
    cases hp : pyParseInt s with
    | none => simp [hp] at h
    | some p =>
      simp only [hp, Except.ok.injEq] at h
      subst h
      refine ⟨rfl, rfl, rfl, rfl, ⟨s, rfl, hp⟩, ?_, ?_⟩
      · by_cases hz : p = 0
        · subst hz; simp [portOrDefault, he, hp]
        · simp [portOrDefault, hz]
      · by_cases hz : p = 0
        · subst hz; simp [portNoDefault, he, hp]
        · simp [portNoDefault, hz]

/-- Full characterization of `send_bulk_emails` when the configuration check
passes and the session prologue succeeds: the trace is prologue, one `send`
per parsed recipient in order, one `quit`; the result is the quit error or
the summary over the loop partition. -/
lemma send_bulk_char (g : Globals) (env : Env) (o : SmtpOracle)
    (recipients subject body : String) (use_tls : Bool) (host : String) (port : Int)
    (hf : truthyOpt (pyOrOpt g.EMAIL_FROM env.EMAIL_FROM) = true)
    (hs : pyOrOpt g.SMTP_SERVER env.SMTP_SERVER = some host)
    (hh : host ≠ "")
    (hp : portNoDefault g.SMTP_PORT env.SMTP_PORT = Except.ok port)
    (hu : truthyOpt (pyOrOpt g.SMTP_USERNAME env.SMTP_USERNAME) = true)
    (hw : truthyOpt (pyOrOpt g.SMTP_PASSWORD env.SMTP_PASSWORD) = true)
    (hc : o.connectR host port = Except.ok ())
    (ht : use_tls = true → o.starttlsR = Except.ok ())
    (hl : o.loginR = Except.ok ()) :
    send_bulk_emails g env o recipients subject body use_tls =
      ((match o.quitR with
        | Except.error e => "Error sending bulk emails: " ++ e.msg
        | Except.ok _ =>
          if (bulkLoop o (parseRecipients recipients)).2.isEmpty then
            "Successfully sent to " ++
              toString (bulkLoop o (parseRecipients recipients)).1.length ++ " recipients."
          else
            "Successfully sent to " ++
              toString (bulkLoop o (parseRecipients recipients)).1.length ++ " recipients." ++
              "\nFailed for " ++
              toString (bulkLoop o (parseRecipients recipients)).2.length ++ " recipients: " ++
              String.intercalate ", " (bulkLoop o (parseRecipients recipients)).2),
       (Ev.connect host port :: if use_tls then [Ev.starttls, Ev.login] else [Ev.login]) ++
         (parseRecipients recipients).map Ev.send ++ [Ev.quit]) := by
  have hsrv : truthyOpt (pyOrOpt g.SMTP_SERVER env.SMTP_SERVER) = true := by
    rw [hs]; simp [truthyOpt, hh]
  unfold send_bulk_emails
  rw [hp]
  simp only [hf, hu, hw, hsrv, hs, Option.getD_some, Bool.and_self, Bool.and_true,
    Bool.true_and, Bool.not_true, Bool.false_eq_true, if_false]
  rw [openSession_ok o host port use_tls hc ht hl]
  cases hq : o.quitR with
  | error e => simp [hq, truthyOpt, hh]
  | ok _ => simp [hq, truthyOpt, hh]

/-- Claim C1 counterexample: with `SMTP_SERVER` absent from both the module
globals and the environment (all other fields present), `send_email` does
not return the configuration-error string: it proceeds to a network
connection against the built-in default host `smtp.gmail.com` and reports
success. -/
theorem C1_counterexample :
    gHostless.SMTP_SERVER = none ∧ envNone.SMTP_SERVER = none ∧
    (send_email gHostless envNone okOracle "to@x.com" "s" "b" true "plain").1 =
      "Email sent successfully to to@x.com" ∧
    Ev.connect "smtp.gmail.com" 2525 ∈
      (send_email gHostless envNone okOracle "to@x.com" "s" "b" true "plain").2 := by
  refine ⟨rfl, rfl, ?_, ?_⟩ <;> decide

/-- Claim C1 as amended: in every state reachable from a successful module
import, if the from-address, username or password resolves to a falsy value
(absent or empty), then each of the three operations returns its
configuration-error string and attempts no network action. The SMTP host
and port are outside this guarantee: the `all([...])` guard never checks
the port, and a missing host is not fatal in `send_email` and
`send_email_with_attachment`, which fall back to `smtp.gmail.com` and
proceed to a connection attempt (the counterexample). -/
theorem C1_amended (g : Globals) (env : Env) (o : SmtpOracle) (fs : PyFs)
    (to_email subject body attachment_path recipients body_type : String) (use_tls : Bool)
    (hload : loadGlobals env = Except.ok g)
    (hmiss : truthyOpt (pyOrOpt g.EMAIL_FROM env.EMAIL_FROM) = false ∨
             truthyOpt (pyOrOpt g.SMTP_USERNAME env.SMTP_USERNAME) = false ∨
             truthyOpt (pyOrOpt g.SMTP_PASSWORD env.SMTP_PASSWORD) = false) :
    send_email g env o to_email subject body use_tls body_type =
      ("Error: Missing required email configuration. Please provide credentials or set environment variables.", []) ∧
    send_email_with_attachment g env o fs to_email subject body attachment_path use_tls =
      ("Error: Missing required email configuration.", []) ∧
    send_bulk_emails g env o recipients subject body use_tls =
      ("Error: Missing required email configuration.", []) := by
  obtain ⟨-, -, -, -, -, hp1, hp2⟩ := loadGlobals_spec env g hload
  unfold send_email send_email_with_attachment send_bulk_emails
  rw [hp1, hp2]
  rcases hmiss with h | h | h <;> simp [h]

/-- Witness for C1's amended theorem at a concrete input: an importable
environment with no from-address. -/
theorem C1_witness :
    send_email gNoFrom envNoFrom okOracle "to@x.com" "s" "b" true "plain" =
      ("Error: Missing required email configuration. Please provide credentials or set environment variables.", []) ∧
    send_email_with_attachment gNoFrom envNoFrom okOracle yesFs "to@x.com" "s" "b" "/tmp/a.txt" true =
      ("Error: Missing required email configuration.", []) ∧
    send_bulk_emails gNoFrom envNoFrom okOracle "a@x.com,b@x.com" "s" "b" true =
      ("Error: Missing required email configuration.", []) :=
  C1_amended gNoFrom envNoFrom okOracle yesFs "to@x.com" "s" "b" "/tmp/a.txt" "a@x.com,b@x.com"
    "plain" true rfl (Or.inl (by decide))

/-- Claim C4: with complete configuration, a nonexistent attachment path
makes `send_email_with_attachment` return the attachment-not-found error
string with an empty trace — zero network connection attempts. -/
theorem C4_attachment_missing (g : Globals) (env : Env) (o : SmtpOracle) (fs : PyFs)
    (to_email subject body attachment_path : String) (use_tls : Bool)
    (hp : ∃ p, portOrDefault g.SMTP_PORT env.SMTP_PORT = Except.ok p)
    (hf : truthyOpt (pyOrOpt g.EMAIL_FROM env.EMAIL_FROM) = true)
    (hs : truthyStr (pyOrStr g.SMTP_SERVER (env.SMTP_SERVER.getD "smtp.gmail.com")) = true)
    (hu : truthyOpt (pyOrOpt g.SMTP_USERNAME env.SMTP_USERNAME) = true)
    (hw : truthyOpt (pyOrOpt g.SMTP_PASSWORD env.SMTP_PASSWORD) = true)
    (hfs : fs.pathExists attachment_path = false) :
    send_email_with_attachment g env o fs to_email subject body attachment_path use_tls =
      ("Error: Attachment file not found: " ++ attachment_path, []) := by
  obtain ⟨p, hp⟩ := hp
  unfold send_email_with_attachment
  rw [hp]
  simp [hf, hs, hu, hw, hfs]

/-- Witness for C4 at a concrete input: full configuration, a filesystem on
which no path exists. -/
theorem C4_witness :
    send_email_with_attachment gFull envNone okOracle noFs "to@x.com" "s" "b" "/tmp/missing.pdf" true =
      ("Error: Attachment file not found: /tmp/missing.pdf", []) :=
  C4_attachment_missing gFull envNone okOracle noFs "to@x.com" "s" "b" "/tmp/missing.pdf" true
    ⟨2525, rfl⟩ (by decide) (by decide) (by decide) (by decide) rfl

/-- Claim C2: with an established session, every parsed recipient gets
exactly one send attempt, in input order, regardless of other recipients'
outcomes; successes and failures partition the recipient list (failures
tagged with their reason); and `quit` happens exactly once, after the whole
list was processed. -/
theorem C2_bulk_independent (g : Globals) (env : Env) (o : SmtpOracle)
    (recipients subject body : String) (use_tls : Bool) (host : String) (port : Int)
    (hf : truthyOpt (pyOrOpt g.EMAIL_FROM env.EMAIL_FROM) = true)
    (hs : pyOrOpt g.SMTP_SERVER env.SMTP_SERVER = some host)
    (hh : host ≠ "")
    (hp : portNoDefault g.SMTP_PORT env.SMTP_PORT = Except.ok port)
    (hu : truthyOpt (pyOrOpt g.SMTP_USERNAME env.SMTP_USERNAME) = true)
    (hw : truthyOpt (pyOrOpt g.SMTP_PASSWORD env.SMTP_PASSWORD) = true)
    (hc : o.connectR host port = Except.ok ())
    (ht : use_tls = true → o.starttlsR = Except.ok ())
    (hl : o.loginR = Except.ok ()) :
    (send_bulk_emails g env o recipients subject body use_tls).2 =
      (Ev.connect host port :: if use_tls then [Ev.starttls, Ev.login] else [Ev.login]) ++
        (parseRecipients recipients).map Ev.send ++ [Ev.quit] ∧
    sendTargets (send_bulk_emails g env o recipients subject body use_tls).2 =
      parseRecipients recipients ∧
    (send_bulk_emails g env o recipients subject body use_tls).2.count Ev.quit = 1 ∧
    (bulkLoop o (parseRecipients recipients)).1 =
      (parseRecipients recipients).filter (fun r => sendOk o r) ∧
    (bulkLoop o (parseRecipients recipients)).2 =
      ((parseRecipients recipients).filter (fun r => !(sendOk o r))).map
        (fun r => r ++ ": " ++ reasonOf (o.sendR r)) ∧
    (bulkLoop o (parseRecipients recipients)).1.length +
      (bulkLoop o (parseRecipients recipients)).2.length =
      (parseRecipients recipients).length := by
  have h := send_bulk_char g env o recipients subject body use_tls host port
    hf hs hh hp hu hw hc ht hl
  have h2 : (send_bulk_emails g env o recipients subject body use_tls).2 =
      (Ev.connect host port :: if use_tls then [Ev.starttls, Ev.login] else [Ev.login]) ++
        (parseRecipients recipients).map Ev.send ++ [Ev.quit] := by rw [h]
  have hb := bulkLoop_filter o (parseRecipients recipients)
  have hpre0 : ((Ev.connect host port ::
      if use_tls then [Ev.starttls, Ev.login] else [Ev.login]) : List Ev).count Ev.quit = 0 :=
    List.count_eq_zero.mpr (by cases use_tls <;> simp)
  refine ⟨h2, ?_, ?_, ?_, ?_, ?_⟩
  · rw [h2, sendTargets_append, sendTargets_append, sendTargets_map_send]
    cases use_tls <;> simp [sendTargets]
  · rw [h2, List.count_append, List.count_append, hpre0, count_quit_map_send]
    decide
  · rw [hb]
  · rw [hb]
  · rw [hb]
    simp only [List.length_map]
    exact (List.length_eq_length_filter_add _).symm

/-- Witness for C2 at a concrete input: three recipients, delivery failing
exactly for the middle one. -/
theorem C2_witness :
    (send_bulk_emails gFull envNone failBOracle "a@x.com, b@x.com ,c@x.com" "s" "b" true).2 =
      (Ev.connect "smtp.x.com" 2525 :: if true then [Ev.starttls, Ev.login] else [Ev.login]) ++
        (parseRecipients "a@x.com, b@x.com ,c@x.com").map Ev.send ++ [Ev.quit] ∧
    sendTargets (send_bulk_emails gFull envNone failBOracle "a@x.com, b@x.com ,c@x.com" "s" "b" true).2 =
      parseRecipients "a@x.com, b@x.com ,c@x.com" ∧
    (send_bulk_emails gFull envNone failBOracle "a@x.com, b@x.com ,c@x.com" "s" "b" true).2.count Ev.quit = 1 ∧
    (bulkLoop failBOracle (parseRecipients "a@x.com, b@x.com ,c@x.com")).1 =
      (parseRecipients "a@x.com, b@x.com ,c@x.com").filter (fun r => sendOk failBOracle r) ∧
    (bulkLoop failBOracle (parseRecipients "a@x.com, b@x.com ,c@x.com")).2 =
      ((parseRecipients "a@x.com, b@x.com ,c@x.com").filter (fun r => !(sendOk failBOracle r))).map
        (fun r => r ++ ": " ++ reasonOf (failBOracle.sendR r)) ∧
    (bulkLoop failBOracle (parseRecipients "a@x.com, b@x.com ,c@x.com")).1.length +
      (bulkLoop failBOracle (parseRecipients "a@x.com, b@x.com ,c@x.com")).2.length =
      (parseRecipients "a@x.com, b@x.com ,c@x.com").length :=
  C2_bulk_independent gFull envNone failBOracle "a@x.com, b@x.com ,c@x.com" "s" "b" true
    "smtp.x.com" 2525 (by decide) rfl (by decide) rfl (by decide) (by decide) rfl
    (fun _ => rfl) rfl

/-- Claim C3: if the session prologue (connect, STARTTLS or authenticate)
raises, `send_bulk_emails` returns the single transaction-error string, no
per-recipient send is attempted, and `quit` is never reached. -/
theorem C3_session_failure (g : Globals) (env : Env) (o : SmtpOracle)
    (recipients subject body : String) (use_tls : Bool) (host : String) (port : Int) (e : PyErr)
    (hf : truthyOpt (pyOrOpt g.EMAIL_FROM env.EMAIL_FROM) = true)
    (hs : pyOrOpt g.SMTP_SERVER env.SMTP_SERVER = some host)
    (hh : host ≠ "")
    (hp : portNoDefault g.SMTP_PORT env.SMTP_PORT = Except.ok port)
    (hu : truthyOpt (pyOrOpt g.SMTP_USERNAME env.SMTP_USERNAME) = true)
    (hw : truthyOpt (pyOrOpt g.SMTP_PASSWORD env.SMTP_PASSWORD) = true)
    (hsess : (openSession o host port use_tls).2 = Except.error e) :
    (send_bulk_emails g env o recipients subject body use_tls).1 =
      "Error sending bulk emails: " ++ e.msg ∧
    sendTargets (send_bulk_emails g env o recipients subject body use_tls).2 = [] ∧
    Ev.quit ∉ (send_bulk_emails g env o recipients subject body use_tls).2 := by
  have hsrv : truthyOpt (pyOrOpt g.SMTP_SERVER env.SMTP_SERVER) = true := by
    rw [hs]; simp [truthyOpt, hh]
  have hpre := openSession_pre o host port use_tls
  unfold send_bulk_emails
  rw [hp]
  rcases hos : openSession o ((pyOrOpt g.SMTP_SERVER env.SMTP_SERVER).getD "") port use_tls
    with ⟨t, r⟩
  rw [hs, Option.getD_some] at hos
  rw [hos] at hsess
  simp only at hsess
  subst hsess
  rw [hos] at hpre
  simp only at hpre
  have hth : truthyOpt (some host) = true := by simp [truthyOpt, hh]
  simp [hf, hu, hw, hsrv, hs, hos, hth, hpre.1, hpre.2.1]

/-- Witness for C3 at a concrete input: authenticate fails. -/
theorem C3_witness :
    (send_bulk_emails gFull envNone failLoginOracle "a@x.com,b@x.com" "s" "b" true).1 =
      "Error sending bulk emails: " ++ PyErr.msg ⟨"auth failed"⟩ ∧
    sendTargets (send_bulk_emails gFull envNone failLoginOracle "a@x.com,b@x.com" "s" "b" true).2 = [] ∧
    Ev.quit ∉ (send_bulk_emails gFull envNone failLoginOracle "a@x.com,b@x.com" "s" "b" true).2 :=
  C3_session_failure gFull envNone failLoginOracle "a@x.com,b@x.com" "s" "b" true
    "smtp.x.com" 2525 ⟨"auth failed"⟩ (by decide) rfl (by decide) rfl (by decide) (by decide) rfl

/-- Claim C7: the recipient list actually used by `send_bulk_emails` is the
comma-split of the input with each entry trimmed — visible as the sequence
of send attempts — and on `"a@x.com, b@x.com ,c@x.com"` it is exactly
`["a@x.com","b@x.com","c@x.com"]`. -/
theorem C7_recipients_parse (g : Globals) (env : Env) (o : SmtpOracle)
    (recipients subject body : String) (use_tls : Bool) (host : String) (port : Int)
    (hf : truthyOpt (pyOrOpt g.EMAIL_FROM env.EMAIL_FROM) = true)
    (hs : pyOrOpt g.SMTP_SERVER env.SMTP_SERVER = some host)
    (hh : host ≠ "")
    (hp : portNoDefault g.SMTP_PORT env.SMTP_PORT = Except.ok port)
    (hu : truthyOpt (pyOrOpt g.SMTP_USERNAME env.SMTP_USERNAME) = true)
    (hw : truthyOpt (pyOrOpt g.SMTP_PASSWORD env.SMTP_PASSWORD) = true)
    (hc : o.connectR host port = Except.ok ())
    (ht : use_tls = true → o.starttlsR = Except.ok ())
    (hl : o.loginR = Except.ok ()) :
    sendTargets (send_bulk_emails g env o recipients subject body use_tls).2 =
      (pySplitComma recipients).map (fun s => pyStrip s) ∧
    parseRecipients "a@x.com, b@x.com ,c@x.com" = ["a@x.com", "b@x.com", "c@x.com"] := by
  constructor
  · have h := send_bulk_char g env o recipients subject body use_tls host port
      hf hs hh hp hu hw hc ht hl
    have h2 : (send_bulk_emails g env o recipients subject body use_tls).2 =
        (Ev.connect host port :: if use_tls then [Ev.starttls, Ev.login] else [Ev.login]) ++
          (parseRecipients recipients).map Ev.send ++ [Ev.quit] := by rw [h]
    rw [h2, sendTargets_append, sendTargets_append, sendTargets_map_send]
    cases use_tls <;> simp [sendTargets, parseRecipients]
  · decide

/-- Under a passing configuration check, the `send_email` trace is the
session prologue followed by events that are neither `starttls` nor
`login`. -/
lemma send_email_decomp (g : Globals) (env : Env) (o : SmtpOracle)
    (to_email subject body : String) (use_tls : Bool) (body_type : String)
    (host : String) (port : Int)
    (hp : portOrDefault g.SMTP_PORT env.SMTP_PORT = Except.ok port)
    (hsv : pyOrStr g.SMTP_SERVER (env.SMTP_SERVER.getD "smtp.gmail.com") = host)
    (hf : truthyOpt (pyOrOpt g.EMAIL_FROM env.EMAIL_FROM) = true)
    (hst : truthyStr host = true)
    (hu : truthyOpt (pyOrOpt g.SMTP_USERNAME env.SMTP_USERNAME) = true)
    (hw : truthyOpt (pyOrOpt g.SMTP_PASSWORD env.SMTP_PASSWORD) = true) :
    ∃ tail, (send_email g env o to_email subject body use_tls body_type).2 =
      (openSession o host port use_tls).1 ++ tail ∧
      Ev.starttls ∉ tail ∧ Ev.login ∉ tail := by
  unfold send_email
  rw [hp, hsv]
  rcases hos : openSession o host port use_tls with ⟨t, r⟩
  cases r with
  | error e => exact ⟨[], by simp [hf, hst, hu, hw, hos]⟩
  | ok _ =>
    cases hse : o.sendR to_email with
    | error e => exact ⟨[Ev.send to_email], by simp [hf, hst, hu, hw, hos, hse]⟩
    | ok _ =>
      cases hqq : o.quitR with
      | error e =>
        exact ⟨[Ev.send to_email, Ev.quit], by simp [hf, hst, hu, hw, hos, hse, hqq]⟩
      | ok _ =>
        exact ⟨[Ev.send to_email, Ev.quit], by simp [hf, hst, hu, hw, hos, hse, hqq]⟩

/-- Same decomposition for `send_email_with_attachment` when the attachment
exists and its bytes can be read. -/
lemma send_email_with_attachment_decomp (g : Globals) (env : Env) (o : SmtpOracle)
    (fs : PyFs)
    (to_email subject body attachment_path : String) (use_tls : Bool)
    (host : String) (port : Int)
    (hp : portOrDefault g.SMTP_PORT env.SMTP_PORT = Except.ok port)
    (hsv : pyOrStr g.SMTP_SERVER (env.SMTP_SERVER.getD "smtp.gmail.com") = host)
    (hf : truthyOpt (pyOrOpt g.EMAIL_FROM env.EMAIL_FROM) = true)
    (hst : truthyStr host = true)
    (hu : truthyOpt (pyOrOpt g.SMTP_USERNAME env.SMTP_USERNAME) = true)
    (hw : truthyOpt (pyOrOpt g.SMTP_PASSWORD env.SMTP_PASSWORD) = true)
    (hfs : fs.pathExists attachment_path = true)
    (hread : fs.readR attachment_path = Except.ok ()) :
    ∃ tail, (send_email_with_attachment g env o fs to_email subject body attachment_path use_tls).2 =
      (openSession o host port use_tls).1 ++ tail ∧
      Ev.starttls ∉ tail ∧ Ev.login ∉ tail := by
  unfold send_email_with_attachment
  rw [hp, hsv]
  rcases hos : openSession o host port use_tls with ⟨t, r⟩
  cases r with
  | error e => exact ⟨[], by simp [hf, hst, hu, hw, hfs, hread, hos]⟩
  | ok _ =>
    cases hse : o.sendR to_email with
    | error e => exact ⟨[Ev.send to_email], by simp [hf, hst, hu, hw, hfs, hread, hos, hse]⟩
    | ok _ =>
      cases hqq : o.quitR with
      | error e =>
        exact ⟨[Ev.send to_email, Ev.quit], by simp [hf, hst, hu, hw, hfs, hread, hos, hse, hqq]⟩
      | ok _ =>
        exact ⟨[Ev.send to_email, Ev.quit], by simp [hf, hst, hu, hw, hfs, hread, hos, hse, hqq]⟩

/-- Same decomposition for `send_bulk_emails`. -/
lemma send_bulk_decomp (g : Globals) (env : Env) (o : SmtpOracle)
    (recipients subject body : String) (use_tls : Bool) (host : String) (port : Int)
    (hp : portNoDefault g.SMTP_PORT env.SMTP_PORT = Except.ok port)
    (hs : pyOrOpt g.SMTP_SERVER env.SMTP_SERVER = some host)
    (hh : host ≠ "")
    (hf : truthyOpt (pyOrOpt g.EMAIL_FROM env.EMAIL_FROM) = true)
    (hu : truthyOpt (pyOrOpt g.SMTP_USERNAME env.SMTP_USERNAME) = true)
    (hw : truthyOpt (pyOrOpt g.SMTP_PASSWORD env.SMTP_PASSWORD) = true) :
    ∃ tail, (send_bulk_emails g env o recipients subject body use_tls).2 =
      (openSession o host port use_tls).1 ++ tail ∧
      Ev.starttls ∉ tail ∧ Ev.login ∉ tail := by
  have hth : truthyOpt (some host) = true := by simp [truthyOpt, hh]
  unfold send_bulk_emails
  rw [hp, hs]
  rcases hos : openSession o ((some host).getD "") port use_tls with ⟨t, r⟩
  rw [Option.getD_some] at hos
  cases r with
  | error e => exact ⟨[], by simp [hf, hth, hu, hw, hos]⟩
  | ok _ =>
    cases hqq : o.quitR with
    | error e =>
      refine ⟨(parseRecipients recipients).map Ev.send ++ [Ev.quit], ?_⟩
      simp [hf, hth, hu, hw, hos, hqq]
    | ok _ =>
      refine ⟨(parseRecipients recipients).map Ev.send ++ [Ev.quit], ?_⟩
      simp [hf, hth, hu, hw, hos, hqq]

/-- With the connect step succeeding, a cleared TLS flag never yields a
`starttls` event in the prologue, and a set TLS flag makes `starttls` the
event right after the connect, in particular before any `login`. -/
lemma openSession_starttls (o : SmtpOracle) (host : String) (port : Int) (use_tls : Bool)
    (hc : o.connectR host port = Except.ok ()) :
    (use_tls = false → Ev.starttls ∉ (openSession o host port use_tls).1) ∧
    (use_tls = true → ∃ rest, (openSession o host port use_tls).1 =
      Ev.connect host port :: Ev.starttls :: rest) := by
  constructor
  · rintro rfl
    cases hl : o.loginR <;> simp [openSession, hc, hl]
  · rintro rfl
    cases hst : o.starttlsR with
    | error e => exact ⟨[], by simp [openSession, hc, hst]⟩
    | ok _ =>
      cases hl : o.loginR with
      | error e => exact ⟨[Ev.login], by simp [openSession, hc, hst, hl]⟩
      | ok _ => exact ⟨[Ev.login], by simp [openSession, hc, hst, hl]⟩

/-- A trace that opens with a connect then a `starttls` has no `login`
before its first `starttls`. -/
lemma noLoginBeforeStarttls_cons (host : String) (port : Int) (rest : List Ev) :
    noLoginBeforeStarttls (Ev.connect host port :: Ev.starttls :: rest) = true := by
  have h1 : (Ev.connect host port == Ev.starttls) = false := by
    simp [beq_eq_false_iff_ne]
  simp [noLoginBeforeStarttls, List.takeWhile, h1]

/-- Claim C5: for every invocation reaching the connection stage, a cleared
TLS flag never produces a `starttls` event, and a set TLS flag produces one
immediately after the connect — hence before any authentication — in all
three operations. -/
theorem C5_starttls_discipline (g : Globals) (env : Env) (o : SmtpOracle) (fs : PyFs)
    (to_email subject body attachment_path recipients body_type : String) (use_tls : Bool)
    (host : String) (port : Int)
    (hgs : g.SMTP_SERVER = some host) (hh : host ≠ "")
    (hgf : truthyOpt g.EMAIL_FROM = true)
    (hgu : truthyOpt g.SMTP_USERNAME = true)
    (hgw : truthyOpt g.SMTP_PASSWORD = true)
    (hgp : g.SMTP_PORT = port) (hp0 : port ≠ 0)
    (hfs : fs.pathExists attachment_path = true)
    (hread : fs.readR attachment_path = Except.ok ())
    (hc : o.connectR host port = Except.ok ()) :
    (use_tls = false →
      Ev.starttls ∉ (send_email g env o to_email subject body use_tls body_type).2 ∧
      Ev.starttls ∉
        (send_email_with_attachment g env o fs to_email subject body attachment_path use_tls).2 ∧
      Ev.starttls ∉ (send_bulk_emails g env o recipients subject body use_tls).2) ∧
    (use_tls = true →
      ((∃ rest, (send_email g env o to_email subject body use_tls body_type).2 =
          Ev.connect host port :: Ev.starttls :: rest) ∧
        noLoginBeforeStarttls (send_email g env o to_email subject body use_tls body_type).2 = true) ∧
      ((∃ rest,
          (send_email_with_attachment g env o fs to_email subject body attachment_path use_tls).2 =
            Ev.connect host port :: Ev.starttls :: rest) ∧
        noLoginBeforeStarttls
          (send_email_with_attachment g env o fs to_email subject body attachment_path use_tls).2 = true) ∧
      ((∃ rest, (send_bulk_emails g env o recipients subject body use_tls).2 =
          Ev.connect host port :: Ev.starttls :: rest) ∧
        noLoginBeforeStarttls (send_bulk_emails g env o recipients subject body use_tls).2 = true)) := by
  have hf : truthyOpt (pyOrOpt g.EMAIL_FROM env.EMAIL_FROM) = true := by
    simp [pyOrOpt, hgf]
  have hu : truthyOpt (pyOrOpt g.SMTP_USERNAME env.SMTP_USERNAME) = true := by
    simp [pyOrOpt, hgu]
  have hw : truthyOpt (pyOrOpt g.SMTP_PASSWORD env.SMTP_PASSWORD) = true := by
    simp [pyOrOpt, hgw]
  have hsv : pyOrStr g.SMTP_SERVER (env.SMTP_SERVER.getD "smtp.gmail.com") = host := by
    rw [hgs]; simp [pyOrStr, hh]
  have hsvt : truthyStr host = true := by simp [truthyStr, hh]
  have hsb : pyOrOpt g.SMTP_SERVER env.SMTP_SERVER = some host := by
    rw [hgs]; simp [pyOrOpt, truthyOpt, hh]
  have hp1 : portOrDefault g.SMTP_PORT env.SMTP_PORT = Except.ok port := by
    rw [hgp]; simp [portOrDefault, hp0]
  have hp2 : portNoDefault g.SMTP_PORT env.SMTP_PORT = Except.ok port := by
    rw [hgp]; simp [portNoDefault, hp0]
  obtain ⟨t1, ht1, hs1, _⟩ := send_email_decomp g env o to_email subject body use_tls body_type
    host port hp1 hsv hf hsvt hu hw
  obtain ⟨t2, ht2, hs2, _⟩ := send_email_with_attachment_decomp g env o fs to_email subject body
    attachment_path use_tls host port hp1 hsv hf hsvt hu hw hfs hread
  obtain ⟨t3, ht3, hs3, _⟩ := send_bulk_decomp g env o recipients subject body use_tls
    host port hp2 hsb hh hf hu hw
  have hopen := openSession_starttls o host port use_tls hc
  constructor
  · rintro rfl
    have hno := hopen.1 rfl
    rw [ht1, ht2, ht3]
    refine ⟨?_, ?_, ?_⟩ <;> simp [List.mem_append] <;> tauto
  · rintro rfl
    obtain ⟨rest, hrest⟩ := hopen.2 rfl
    rw [ht1, ht2, ht3, hrest]
    refine ⟨⟨⟨rest ++ t1, by simp⟩, ?_⟩, ⟨⟨rest ++ t2, by simp⟩, ?_⟩, ⟨⟨rest ++ t3, by simp⟩, ?_⟩⟩
    · have := noLoginBeforeStarttls_cons host port (rest ++ t1)
      simpa using this
    · have := noLoginBeforeStarttls_cons host port (rest ++ t2)
      simpa using this
    · have := noLoginBeforeStarttls_cons host port (rest ++ t3)
      simpa using this

/-- Witness for C5 at a concrete input with the TLS flag set: all three
operations issue `starttls` right after the connect. -/
theorem C5_witness :
    ((∃ rest, (send_email gFull envNone okOracle "to@x.com" "s" "b" true "plain").2 =
        Ev.connect "smtp.x.com" 2525 :: Ev.starttls :: rest) ∧
      noLoginBeforeStarttls (send_email gFull envNone okOracle "to@x.com" "s" "b" true "plain").2 = true) ∧
    ((∃ rest,
        (send_email_with_attachment gFull envNone okOracle yesFs "to@x.com" "s" "b" "/tmp/a.txt" true).2 =
          Ev.connect "smtp.x.com" 2525 :: Ev.starttls :: rest) ∧
      noLoginBeforeStarttls
        (send_email_with_attachment gFull envNone okOracle yesFs "to@x.com" "s" "b" "/tmp/a.txt" true).2 = true) ∧
    ((∃ rest, (send_bulk_emails gFull envNone okOracle "a@x.com" "s" "b" true).2 =
        Ev.connect "smtp.x.com" 2525 :: Ev.starttls :: rest) ∧
      noLoginBeforeStarttls (send_bulk_emails gFull envNone okOracle "a@x.com" "s" "b" true).2 = true) :=
  (C5_starttls_discipline gFull envNone okOracle yesFs "to@x.com" "s" "b" "/tmp/a.txt" "a@x.com"
    "plain" true "smtp.x.com" 2525 rfl (by decide) (by decide) (by decide) (by decide) rfl
    (by decide) rfl rfl rfl).2 rfl

/-- Claim C8: when the loop completes and `quit` succeeds, the result string
reports the success count, and carries the failure count together with the
comma-joined `recipient: reason` entries precisely when some recipient
failed. -/
theorem C8_summary_format (g : Globals) (env : Env) (o : SmtpOracle)
    (recipients subject body : String) (use_tls : Bool) (host : String) (port : Int)
    (hf : truthyOpt (pyOrOpt g.EMAIL_FROM env.EMAIL_FROM) = true)
    (hs : pyOrOpt g.SMTP_SERVER env.SMTP_SERVER = some host)
    (hh : host ≠ "")
    (hp : portNoDefault g.SMTP_PORT env.SMTP_PORT = Except.ok port)
    (hu : truthyOpt (pyOrOpt g.SMTP_USERNAME env.SMTP_USERNAME) = true)
    (hw : truthyOpt (pyOrOpt g.SMTP_PASSWORD env.SMTP_PASSWORD) = true)
    (hc : o.connectR host port = Except.ok ())
    (ht : use_tls = true → o.starttlsR = Except.ok ())
    (hl : o.loginR = Except.ok ())
    (hq : o.quitR = Except.ok ()) :
    (send_bulk_emails g env o recipients subject body use_tls).1 =
      (if (((parseRecipients recipients).filter (fun r => !(sendOk o r))).map
            (fun r => r ++ ": " ++ reasonOf (o.sendR r))).isEmpty then
        "Successfully sent to " ++
          toString ((parseRecipients recipients).filter (fun r => sendOk o r)).length ++
          " recipients."
      else
        "Successfully sent to " ++
          toString ((parseRecipients recipients).filter (fun r => sendOk o r)).length ++
          " recipients." ++ "\nFailed for " ++
          toString (((parseRecipients recipients).filter (fun r => !(sendOk o r))).map
            (fun r => r ++ ": " ++ reasonOf (o.sendR r))).length ++
          " recipients: " ++
          String.intercalate ", "
            (((parseRecipients recipients).filter (fun r => !(sendOk o r))).map
              (fun r => r ++ ": " ++ reasonOf (o.sendR r)))) := by
  have h := send_bulk_char g env o recipients subject body use_tls host port
    hf hs hh hp hu hw hc ht hl
  have h1 := congrArg Prod.fst h
  simp only at h1
  rw [h1, hq, bulkLoop_filter]

/-- Witness for C8 at a concrete input: delivery fails exactly for the
middle recipient, and the summary names it with its reason. -/
theorem C8_witness :
    (send_bulk_emails gFull envNone failBOracle "a@x.com, b@x.com ,c@x.com" "s" "b" true).1 =
      "Successfully sent to 2 recipients.\nFailed for 1 recipients: b@x.com: boom" := by
  rw [C8_summary_format gFull envNone failBOracle "a@x.com, b@x.com ,c@x.com" "s" "b" true
    "smtp.x.com" 2525 (by decide) rfl (by decide) rfl (by decide) (by decide) rfl
    (fun _ => rfl) rfl rfl]
  decide

/-- Claim C10: with the session established, the success list is exactly the
subsequence of the trimmed input recipients whose sends succeed, in input
order, and the failure entries are the failing recipients in input order;
moreover the send attempts on the wire follow input order. -/
theorem C10_order_preserved (g : Globals) (env : Env) (o : SmtpOracle)
    (recipients subject body : String) (use_tls : Bool) (host : String) (port : Int)
    (hf : truthyOpt (pyOrOpt g.EMAIL_FROM env.EMAIL_FROM) = true)
    (hs : pyOrOpt g.SMTP_SERVER env.SMTP_SERVER = some host)
    (hh : host ≠ "")
    (hp : portNoDefault g.SMTP_PORT env.SMTP_PORT = Except.ok port)
    (hu : truthyOpt (pyOrOpt g.SMTP_USERNAME env.SMTP_USERNAME) = true)
    (hw : truthyOpt (pyOrOpt g.SMTP_PASSWORD env.SMTP_PASSWORD) = true)
    (hc : o.connectR host port = Except.ok ())
    (ht : use_tls = true → o.starttlsR = Except.ok ())
    (hl : o.loginR = Except.ok ()) :
    (bulkLoop o (parseRecipients recipients)).1 =
      (parseRecipients recipients).filter (fun r => sendOk o r) ∧
    List.Sublist (bulkLoop o (parseRecipients recipients)).1 (parseRecipients recipients) ∧
    (bulkLoop o (parseRecipients recipients)).2 =
      ((parseRecipients recipients).filter (fun r => !(sendOk o r))).map
        (fun r => r ++ ": " ++ reasonOf (o.sendR r)) ∧
    sendTargets (send_bulk_emails g env o recipients subject body use_tls).2 =
      parseRecipients recipients := by
  have h := send_bulk_char g env o recipients subject body use_tls host port
    hf hs hh hp hu hw hc ht hl
  have h2 : (send_bulk_emails g env o recipients subject body use_tls).2 =
      (Ev.connect host port :: if use_tls then [Ev.starttls, Ev.login] else [Ev.login]) ++
        (parseRecipients recipients).map Ev.send ++ [Ev.quit] := by rw [h]
  have hb := bulkLoop_filter o (parseRecipients recipients)
  refine ⟨?_, ?_, ?_, ?_⟩
  · rw [hb]
  · rw [hb]; exact List.filter_sublist _
  · rw [hb]
  · rw [h2, sendTargets_append, sendTargets_append, sendTargets_map_send]
    cases use_tls <;> simp [sendTargets]

/-- Witness for C10 at a concrete input. -/
theorem C10_witness :
    (bulkLoop failBOracle (parseRecipients "a@x.com, b@x.com ,c@x.com")).1 =
      (parseRecipients "a@x.com, b@x.com ,c@x.com").filter (fun r => sendOk failBOracle r) ∧
    List.Sublist (bulkLoop failBOracle (parseRecipients "a@x.com, b@x.com ,c@x.com")).1
      (parseRecipients "a@x.com, b@x.com ,c@x.com") ∧
    (bulkLoop failBOracle (parseRecipients "a@x.com, b@x.com ,c@x.com")).2 =
      ((parseRecipients "a@x.com, b@x.com ,c@x.com").filter (fun r => !(sendOk failBOracle r))).map
        (fun r => r ++ ": " ++ reasonOf (failBOracle.sendR r)) ∧
    sendTargets (send_bulk_emails gFull envNone failBOracle "a@x.com, b@x.com ,c@x.com" "s" "b" true).2 =
      parseRecipients "a@x.com, b@x.com ,c@x.com" :=
  C10_order_preserved gFull envNone failBOracle "a@x.com, b@x.com ,c@x.com" "s" "b" true
    "smtp.x.com" 2525 (by decide) rfl (by decide) rfl (by decide) (by decide) rfl
    (fun _ => rfl) rfl

/-- Every run of `send_email` yields one of its three result shapes. -/
lemma send_email_shapes (g : Globals) (env : Env) (o : SmtpOracle)
    (to_email subject body : String) (use_tls : Bool) (body_type : String) :
    (send_email g env o to_email subject body use_tls body_type).1 =
        "Email sent successfully to " ++ to_email ∨
    (send_email g env o to_email subject body use_tls body_type).1 =
        "Error: Missing required email configuration. Please provide credentials or set environment variables." ∨
    ∃ m, (send_email g env o to_email subject body use_tls body_type).1 =
        "Error sending email: " ++ m := by
  simp only [send_email]
  split
  · exact Or.inr (Or.inr ⟨_, rfl⟩)
  · split
    · exact Or.inr (Or.inl rfl)
    · split
      · exact Or.inr (Or.inr ⟨_, rfl⟩)
      · split
        · exact Or.inr (Or.inr ⟨_, rfl⟩)
        · split
          · exact Or.inr (Or.inr ⟨_, rfl⟩)
          · exact Or.inl rfl

/-- Every run of `send_email_with_attachment` yields one of its four result
shapes. -/
lemma send_email_with_attachment_shapes (g : Globals) (env : Env) (o : SmtpOracle)
    (fs : PyFs) (to_email subject body attachment_path : String) (use_tls : Bool) :
    (send_email_with_attachment g env o fs to_email subject body attachment_path use_tls).1 =
        "Email with attachment sent successfully to " ++ to_email ∨
    (send_email_with_attachment g env o fs to_email subject body attachment_path use_tls).1 =
        "Error: Missing required email configuration." ∨
    (send_email_with_attachment g env o fs to_email subject body attachment_path use_tls).1 =
        "Error: Attachment file not found: " ++ attachment_path ∨
    ∃ m, (send_email_with_attachment g env o fs to_email subject body attachment_path use_tls).1 =
        "Error sending email with attachment: " ++ m := by
  simp only [send_email_with_attachment]
  split
  · exact Or.inr (Or.inr (Or.inr ⟨_, rfl⟩))
  · split
    · exact Or.inr (Or.inl rfl)
    · split
      · exact Or.inr (Or.inr (Or.inl rfl))
      · split
        · exact Or.inr (Or.inr (Or.inr ⟨_, rfl⟩))
        · split
          · exact Or.inr (Or.inr (Or.inr ⟨_, rfl⟩))
          · split
            · exact Or.inr (Or.inr (Or.inr ⟨_, rfl⟩))
            · split
              · exact Or.inr (Or.inr (Or.inr ⟨_, rfl⟩))
              · exact Or.inl rfl

/-- Every run of `send_bulk_emails` yields one of its three result shapes. -/
lemma send_bulk_emails_shapes (g : Globals) (env : Env) (o : SmtpOracle)
    (recipients subject body : String) (use_tls : Bool) :
    (send_bulk_emails g env o recipients subject body use_tls).1 =
        "Error: Missing required email configuration." ∨
    (∃ m, (send_bulk_emails g env o recipients subject body use_tls).1 =
        "Error sending bulk emails: " ++ m) ∨
    ∃ m, (send_bulk_emails g env o recipients subject body use_tls).1 =
        "Successfully sent to " ++ m := by
  simp only [send_bulk_emails]
  split
  · exact Or.inr (Or.inl ⟨_, rfl⟩)
  · split
    · exact Or.inl rfl
    · split
      · exact Or.inr (Or.inl ⟨_, rfl⟩)
      · split
        · exact Or.inr (Or.inl ⟨_, rfl⟩)
        · split
          · refine Or.inr (Or.inr ?_)
            simp only [String.append_assoc]
            exact ⟨_, rfl⟩
          · refine Or.inr (Or.inr ?_)
            simp only [String.append_assoc]
            exact ⟨_, rfl⟩

/-- Claim C6: for every input and every outcome of the SMTP interaction,
each operation returns a string of one of its documented shapes — a success
descriptor or a descriptive error string; no exception escapes the
operation boundary (in the embedding, each operation is a total function
into strings and the shapes below are exhaustive). -/
theorem C6_total_string_results (g : Globals) (env : Env) (o : SmtpOracle) (fs : PyFs)
    (to_email subject body attachment_path recipients body_type : String) (use_tls : Bool) :
    ((send_email g env o to_email subject body use_tls body_type).1 =
        "Email sent successfully to " ++ to_email ∨
      (send_email g env o to_email subject body use_tls body_type).1 =
        "Error: Missing required email configuration. Please provide credentials or set environment variables." ∨
      ∃ m, (send_email g env o to_email subject body use_tls body_type).1 =
        "Error sending email: " ++ m) ∧
    ((send_email_with_attachment g env o fs to_email subject body attachment_path use_tls).1 =
        "Email with attachment sent successfully to " ++ to_email ∨
      (send_email_with_attachment g env o fs to_email subject body attachment_path use_tls).1 =
        "Error: Missing required email configuration." ∨
      (send_email_with_attachment g env o fs to_email subject body attachment_path use_tls).1 =
        "Error: Attachment file not found: " ++ attachment_path ∨
      ∃ m, (send_email_with_attachment g env o fs to_email subject body attachment_path use_tls).1 =
        "Error sending email with attachment: " ++ m) ∧
    ((send_bulk_emails g env o recipients subject body use_tls).1 =
        "Error: Missing required email configuration." ∨
      (∃ m, (send_bulk_emails g env o recipients subject body use_tls).1 =
        "Error sending bulk emails: " ++ m) ∨
      ∃ m, (send_bulk_emails g env o recipients subject body use_tls).1 =
        "Successfully sent to " ++ m) :=
  ⟨send_email_shapes g env o to_email subject body use_tls body_type,
   send_email_with_attachment_shapes g env o fs to_email subject body attachment_path use_tls,
   send_bulk_emails_shapes g env o recipients subject body use_tls⟩

/-- Witness for C7 at a concrete input. -/
theorem C7_witness :
    sendTargets (send_bulk_emails gFull envNone okOracle "a@x.com, b@x.com ,c@x.com" "s" "b" true).2 =
      (pySplitComma "a@x.com, b@x.com ,c@x.com").map (fun s => pyStrip s) ∧
    parseRecipients "a@x.com, b@x.com ,c@x.com" = ["a@x.com", "b@x.com", "c@x.com"] :=
  C7_recipients_parse gFull envNone okOracle "a@x.com, b@x.com ,c@x.com" "s" "b" true
    "smtp.x.com" 2525 (by decide) rfl (by decide) rfl (by decide) (by decide) rfl
    (fun _ => rfl) rfl

/-- Claim C9 counterexample: the claimed port behaviour never occurs in
any reachable run. With the port variable absent, the module import itself
raises at line 22, so no operation runs, let alone falls back to port 587;
and in the one reachable state with a falsy port global — an environment
value parsing to 0 — all three operations proceed on port 0: `send_email`
connects on port 0, not 587, and `send_bulk_emails` neither raises on
`int(None)` nor errors out — it connects on port 0 as well, so the
operations do not disagree about the port. -/
theorem C9_counterexample :
    loadGlobals envPortAbsent = Except.error ⟨intNoneMsg⟩ ∧
    loadGlobals envPortZero = Except.ok gPortless ∧
    (send_email gPortless envPortZero okOracle "to@x.com" "s" "b" true "plain").2 =
      [Ev.connect "smtp.x.com" 0, Ev.starttls, Ev.login, Ev.send "to@x.com", Ev.quit] ∧
    (send_bulk_emails gPortless envPortZero okOracle "a@x.com" "s" "b" true).2 =
      [Ev.connect "smtp.x.com" 0, Ev.starttls, Ev.login, Ev.send "a@x.com", Ev.quit] := by
  refine ⟨rfl, rfl, ?_, ?_⟩ <;> decide

/-- Claim C9 as amended: only the SMTP host makes the three operations
disagree on which missing configuration is fatal. In every state reachable
from a successful module import: with the `SMTP_SERVER` global unset,
`send_email` and `send_email_with_attachment` do not return a configuration
error — they proceed to a connection attempt against the default
`smtp.gmail.com` — while `send_bulk_emails` returns the configuration error
with no connection. The port never produces a disagreement: a falsy port
global forces an environment value parsing to 0, and then all three
operations proceed to a connection attempt on port 0, with no 587 fallback
and no `int(None)` raise. -/
theorem C9_amended (g : Globals) (env : Env) (o : SmtpOracle)
    (fs : PyFs)
    (to_email subject body attachment_path recipients body_type : String) (use_tls : Bool)
    (hload : loadGlobals env = Except.ok g)
    (hf : truthyOpt (pyOrOpt g.EMAIL_FROM env.EMAIL_FROM) = true)
    (hu : truthyOpt (pyOrOpt g.SMTP_USERNAME env.SMTP_USERNAME) = true)
    (hw : truthyOpt (pyOrOpt g.SMTP_PASSWORD env.SMTP_PASSWORD) = true)
    (hfs : fs.pathExists attachment_path = true)
    (hread : fs.readR attachment_path = Except.ok ()) :
    (g.SMTP_SERVER = none →
      ((∃ rest, (send_email g env o to_email subject body use_tls body_type).2 =
          Ev.connect "smtp.gmail.com" g.SMTP_PORT :: rest) ∧
       (∃ rest,
          (send_email_with_attachment g env o fs to_email subject body attachment_path use_tls).2 =
            Ev.connect "smtp.gmail.com" g.SMTP_PORT :: rest) ∧
       send_bulk_emails g env o recipients subject body use_tls =
         ("Error: Missing required email configuration.", []))) ∧
    (∀ host, g.SMTP_SERVER = some host → host ≠ "" → g.SMTP_PORT = 0 →
      ((∃ rest, (send_email g env o to_email subject body use_tls body_type).2 =
          Ev.connect host 0 :: rest) ∧
       (∃ rest,
          (send_email_with_attachment g env o fs to_email subject body attachment_path use_tls).2 =
            Ev.connect host 0 :: rest) ∧
       (∃ rest, (send_bulk_emails g env o recipients subject body use_tls).2 =
          Ev.connect host 0 :: rest))) := by
  obtain ⟨hfe, hse, hus, hpa, ⟨s, hes, hps⟩, hp1, hp2⟩ := loadGlobals_spec env g hload
  constructor
  · intro hgs
    have he1 : env.SMTP_SERVER = none := by rw [← hse, hgs]
    have hsv : pyOrStr g.SMTP_SERVER (env.SMTP_SERVER.getD "smtp.gmail.com") = "smtp.gmail.com" := by
      rw [hgs, he1]; rfl
    have hsvt : truthyStr "smtp.gmail.com" = true := by decide
    obtain ⟨t1, ht1, _, _⟩ := send_email_decomp g env o to_email subject body use_tls body_type
      "smtp.gmail.com" g.SMTP_PORT hp1 hsv hf hsvt hu hw
    obtain ⟨t2, ht2, _, _⟩ := send_email_with_attachment_decomp g env o fs to_email subject body
      attachment_path use_tls "smtp.gmail.com" g.SMTP_PORT hp1 hsv hf hsvt hu hw hfs hread
    obtain ⟨r0, hr0⟩ := (openSession_pre o "smtp.gmail.com" g.SMTP_PORT use_tls).2.2
    refine ⟨⟨r0 ++ t1, ?_⟩, ⟨r0 ++ t2, ?_⟩, ?_⟩
    · rw [ht1, hr0]; simp
    · rw [ht2, hr0]; simp
    · have hsb : pyOrOpt g.SMTP_SERVER env.SMTP_SERVER = none := by
        rw [hgs, he1]; rfl
      unfold send_bulk_emails
      rw [hp2]
      simp [hsb, truthyOpt]
  · intro host hgs hh hgp0
    have hsv : pyOrStr g.SMTP_SERVER (env.SMTP_SERVER.getD "smtp.gmail.com") = host := by
      rw [hgs]; simp [pyOrStr, hh]
    have hsvt : truthyStr host = true := by simp [truthyStr, hh]
    have hsb : pyOrOpt g.SMTP_SERVER env.SMTP_SERVER = some host := by
      rw [hgs]; simp [pyOrOpt, truthyOpt, hh]
    have hp1z : portOrDefault g.SMTP_PORT env.SMTP_PORT = Except.ok 0 := by rw [hp1, hgp0]
    have hp2z : portNoDefault g.SMTP_PORT env.SMTP_PORT = Except.ok 0 := by rw [hp2, hgp0]
    obtain ⟨t1, ht1, _, _⟩ := send_email_decomp g env o to_email subject body use_tls body_type
      host 0 hp1z hsv hf hsvt hu hw
    obtain ⟨t2, ht2, _, _⟩ := send_email_with_attachment_decomp g env o fs to_email subject body
      attachment_path use_tls host 0 hp1z hsv hf hsvt hu hw hfs hread
    obtain ⟨t3, ht3, _, _⟩ := send_bulk_decomp g env o recipients subject body use_tls
      host 0 hp2z hsb hh hf hu hw
    obtain ⟨r0, hr0⟩ := (openSession_pre o host 0 use_tls).2.2
    refine ⟨⟨r0 ++ t1, ?_⟩, ⟨r0 ++ t2, ?_⟩, ⟨r0 ++ t3, ?_⟩⟩
    · rw [ht1, hr0]; simp
    · rw [ht2, hr0]; simp
    · rw [ht3, hr0]; simp

/-- Witness for C9 as amended at a concrete importable environment with the
host unset: the single-send operations fall back to `smtp.gmail.com` while
`send_bulk_emails` reports missing configuration. -/
theorem C9_witness :
    (∃ rest, (send_email gHostless envHostless okOracle "to@x.com" "s" "b" true "plain").2 =
        Ev.connect "smtp.gmail.com" 2525 :: rest) ∧
    (∃ rest,
        (send_email_with_attachment gHostless envHostless okOracle yesFs "to@x.com" "s" "b" "/tmp/a.txt" true).2 =
          Ev.connect "smtp.gmail.com" 2525 :: rest) ∧
    send_bulk_emails gHostless envHostless okOracle "a@x.com" "s" "b" true =
      ("Error: Missing required email configuration.", []) :=
  (C9_amended gHostless envHostless okOracle yesFs
    "to@x.com" "s" "b" "/tmp/a.txt" "a@x.com" "plain" true
    rfl (by decide) (by decide) (by decide) rfl rfl).1 rfl

end EmailServer
